import Mathlib

/-!
Shallow embedding of the NeuroBuddy voice-interaction turn-taking controller
(`Companion.tsx`), its routine matcher (`lib/routines.ts`) and the store actions
it drives (`store/index.ts`), together with proofs about the transcript queue,
the mic/speaker arbitration, the routine-progression logic, the frustration
escalation ladder and the debounced transcript intake.
-/

namespace NeuroBuddy

/-- A single step of a guided routine (`RoutineStep` in `types/index.ts`). -/
structure RoutineStep where
  id : String
  instruction : String
  encouragement : String
  microSteps : List String
deriving Repr, DecidableEq, Inhabited

/-- A guided routine (`Routine` in `types/index.ts`). -/
structure Routine where
  id : String
  name : String
  icon : String
  triggerPhrases : List String
  steps : List RoutineStep
deriving Repr, DecidableEq, Inhabited

/-- The child-profile fields the turn-taking controller consumes
(`ChildProfile` in `types/index.ts`, restricted to `name` and `likes`). -/
structure ChildProfile where
  name : String
  likes : List String
deriving Repr, DecidableEq, Inhabited

/-- Qualitative frustration level (`FrustrationLevel` in `types/index.ts`). -/
inductive FrustrationLevel where
  | none
  | mild
  | moderate
  | high
deriving Repr, DecidableEq, Inhabited

/-- Message author role (`Message.role` in `types/index.ts`). -/
inductive Role where
  | user
  | assistant
deriving Repr, DecidableEq, Inhabited

/-- A conversation-log entry (`Message` in `types/index.ts`, restricted to the
fields the controller logic depends on). -/
structure Message where
  role : Role
  content : String
deriving Repr, DecidableEq, Inhabited

/-- JS `String.prototype.toLowerCase()`: characterwise lowercasing. -/
def strToLower (s : String) : String := ⟨s.data.map Char.toLower⟩

/-- JS `String.prototype.includes`: substring containment, on the underlying
character lists. -/
def strIncludes (hay pat : String) : Bool :=
  decide (pat.toList <:+: hay.toList)

/-- Whether some trigger phrase of `r`, lowercased, occurs in the lowercased
text (the inner loop of `findRoutineByTrigger` in `lib/routines.ts`). -/
def routineMatches (text : String) (r : Routine) : Bool :=
  r.triggerPhrases.any (fun phrase => strIncludes (strToLower text) (strToLower phrase))

/-- The function `findRoutineByTrigger` from `lib/routines.ts`: the first routine in catalog
order with a matching trigger phrase, if any. -/
def findRoutineByTrigger (catalog : List Routine) (text : String) : Option Routine :=
  catalog.find? (routineMatches text)

/-- The fixed offline fallback phrases (`OFFLINE_PHRASES` in `Companion.tsx`). -/
def OFFLINE_PHRASES : List String :=
  ["I'm here with you!",
   "You're doing great!",
   "Keep going, you've got this!",
   "I believe in you!"]

/-- The function `handleFrustrationEscalation` from `Companion.tsx`. `likeIdx` models the
random index `Math.floor(Math.random() * (likes.length || 1))`; the result is
the derived level, whether this increment raises the help alert, and the list
of phrases spoken by the escalation itself. -/
def handleFrustrationEscalation (profile : ChildProfile) (likeIdx : Nat)
    (count : Nat) : FrustrationLevel × Bool × List String :=
  if count ≥ 4 then
    (FrustrationLevel.high, true,
      ["Hey, can someone help " ++ profile.name ++ "? We could use a hand!"])
  else if count ≥ 3 then
    (FrustrationLevel.moderate, false,
      match profile.likes[likeIdx]? with
      | some like =>
          ["You know what? Let's take a little break. Tell me about " ++ like ++ "!"]
      | none => [])
  else if count ≥ 1 then
    (FrustrationLevel.mild, false, [])
  else
    (FrustrationLevel.none, false, [])

/-- The store and ref state of the Companion controller that the per-utterance
handler reads and writes: the zustand routine/frustration/message fields, the
`frustrationCountRef`, the `showHelpAlert` flag and the outstanding
offline-fallback timer (`retryTimeoutRef`), identified by a timer id. -/
structure CompanionState where
  currentRoutine : Option Routine
  currentStepIndex : Nat
  frustrationCount : Nat
  frustrationLevel : FrustrationLevel
  showHelpAlert : Bool
  messages : List Message
  retryTimer : Option Nat
deriving Repr, DecidableEq, Inhabited

/-- Store action `addMessage` (`store/index.ts`), restricted to the modelled
message fields. -/
def addMessage (role : Role) (content : String) (s : CompanionState) :
    CompanionState :=
  { s with messages := s.messages ++ [{ role := role, content := content }] }

/-- Store action `startRoutine` (`store/index.ts`). -/
def startRoutine (r : Routine) (s : CompanionState) : CompanionState :=
  { s with
      currentRoutine := some r,
      currentStepIndex := 0,
      frustrationLevel := FrustrationLevel.none }

/-- Store action `nextStep` (`store/index.ts`): advances the cursor only when a
routine is active and the cursor is strictly below the last index. -/
def nextStep (s : CompanionState) : CompanionState :=
  match s.currentRoutine with
  | some r =>
      if s.currentStepIndex < r.steps.length - 1 then
        { s with currentStepIndex := s.currentStepIndex + 1 }
      else s
  | none => s

/-- Store action `endRoutine` (`store/index.ts`). -/
def endRoutine (s : CompanionState) : CompanionState :=
  { s with
      currentRoutine := none,
      currentStepIndex := 0,
      frustrationLevel := FrustrationLevel.none }

/-- The `/api/chat` response shape the controller consumes. -/
structure ChatResponse where
  message : String
  indicatesProgress : Bool
  indicatesFrustration : Bool
deriving Repr, DecidableEq, Inhabited

/-- Outcome of the awaited `/api/chat` call: a parsed response, or any failure
(non-ok status or rejection), which lands in the `catch` block. -/
inductive ApiOutcome where
  | ok (resp : ChatResponse)
  | err
deriving Repr, DecidableEq

/-- Result of one `processUserInput` turn: the updated controller state, the
utterances spoken during the turn (in order), and whether the Conversation
Service was called. -/
structure TurnResult where
  state : CompanionState
  spoken : List String
  apiCalled : Bool
deriving Repr, DecidableEq

/-- The success continuation of `processUserInput` (`Companion.tsx`): append
the assistant message, handle routine progress (advance or end, reset the
frustration counter), then handle an independent frustration signal. -/
def handleApiSuccess (profile : ChildProfile) (likeIdx : Nat)
    (st : CompanionState) (resp : ChatResponse) : CompanionState × List String :=
  let st1 := addMessage Role.assistant resp.message st
  let afterProgress : CompanionState × List String :=
    match st1.currentRoutine with
    | some r =>
        if resp.indicatesProgress then
          if st1.currentStepIndex ≥ r.steps.length - 1 then
            ({ (endRoutine st1) with
                 frustrationCount := 0,
                 frustrationLevel := FrustrationLevel.none },
             [resp.message])
          else
            let nextInstruction :=
              (r.steps[st1.currentStepIndex + 1]?).map RoutineStep.instruction
            ({ (nextStep st1) with
                 frustrationCount := 0,
                 frustrationLevel := FrustrationLevel.none },
             [match nextInstruction with
              | some instr => resp.message ++ " " ++ instr
              | none => resp.message])
        else (st1, [resp.message])
    | none => (st1, [resp.message])
  if resp.indicatesFrustration then
    let count := afterProgress.1.frustrationCount + 1
    let esc := handleFrustrationEscalation profile likeIdx count
    ({ afterProgress.1 with
         frustrationCount := count,
         frustrationLevel := esc.1,
         showHelpAlert := afterProgress.1.showHelpAlert || esc.2.1 },
     afterProgress.2 ++ esc.2.2)
  else afterProgress

/-- The function `processUserInput` from `Companion.tsx`: one dequeued transcript handled
end-to-end. `likeIdx` models the random like choice in the escalation,
`fallbackId` the fresh timer id a failure schedules, and `api` the outcome of
the awaited `/api/chat` call (unused on the routine-trigger short-circuit,
which never reaches the fetch). -/
def processUserInput (catalog : List Routine) (profile : ChildProfile)
    (likeIdx fallbackId : Nat) (api : ApiOutcome)
    (st : CompanionState) (transcript : String) : TurnResult :=
  if transcript = "" then { state := st, spoken := [], apiCalled := false }
  else
    let st0 := addMessage Role.user transcript st
    let trigger : Option Routine :=
      match st0.currentRoutine with
      | some _ => none
      | none => findRoutineByTrigger catalog transcript
    match trigger with
    | some r =>
        let greeting := "Oh, you want to " ++ strToLower r.name ++ "! I'll help you. "
          ++ (r.steps.headI).instruction
        { state := addMessage Role.assistant greeting (startRoutine r st0),
          spoken := [greeting], apiCalled := false }
    | none =>
        match api with
        | ApiOutcome.ok resp =>
            let out := handleApiSuccess profile likeIdx st0 resp
            { state := out.1, spoken := out.2, apiCalled := true }
        | ApiOutcome.err =>
            { state := { st0 with retryTimer := some fallbackId },
              spoken := ["Hold on, I'm thinking..."], apiCalled := true }

/-- The delayed offline-fallback timer callback (`Companion.tsx`): `offIdx`
models `Math.floor(Math.random() * OFFLINE_PHRASES.length)` and `mounted` the
`isMountedRef` check. Firing consumes the outstanding timer. -/
def fireFallback (offIdx : Nat) (mounted : Bool) (st : CompanionState) :
    CompanionState × List String :=
  let st0 := { st with retryTimer := none }
  if mounted then
    match OFFLINE_PHRASES[offIdx]? with
    | some phrase => (addMessage Role.assistant phrase st0, [phrase])
    | none => (st0, [])
  else (st0, [])

/-- The transcript queue and busy guard of `processQueue` (`Companion.tsx`):
`processing` holds the transcript currently in flight, if any; the
`isProcessingRef` boolean guard is `processing.isSome`. -/
structure QueueState where
  queue : List String
  processing : Option String
deriving Repr, DecidableEq, Inhabited

/-- Events on the transcript queue: the debounced handler pushes a transcript,
`processQueue` pops the head and marks itself busy (a no-op while the guard is
set or when the queue is empty), and the awaited `processUserInput` completing
clears the guard. -/
inductive QueueEvent where
  | enqueue (t : String)
  | drainStart
  | drainFinish
deriving Repr, DecidableEq

/-- One transition of the queue state (`Companion.tsx`, `processQueue` and
`debouncedHandleResult`). -/
def queueStep (s : QueueState) : QueueEvent → QueueState
  | QueueEvent.enqueue t => { s with queue := s.queue ++ [t] }
  | QueueEvent.drainStart =>
      if s.processing.isSome then s
      else
        match s.queue with
        | [] => s
        | t :: rest => { queue := rest, processing := some t }
  | QueueEvent.drainFinish => { s with processing := none }

/-- Mic/speaker arbitration state: the `micActive` toggle, the recognizer's
listening flag and the TTS speaking flag (`Companion.tsx` together with
`useSpeechRecognition.ts`). -/
structure MicState where
  micActive : Bool
  listening : Bool
  speaking : Bool
deriving Repr, DecidableEq, Inhabited

/-- Externally triggered transitions: the mic toggle / greeting enabling or
disabling the mic, and speech output starting or ending. -/
inductive MicEvent where
  | micOn
  | micOff
  | speakStart
  | speakEnd
deriving Repr, DecidableEq

/-- One controller transition. The suppression effect
(`if (micActive) { isSpeaking ? stopListening() : startListening() }`) is
folded into the speaking transitions, and `toggleMicrophone` (which starts
listening only when not speaking, and always stops it when turning the mic
off) into the mic transitions. -/
def micStep (s : MicState) : MicEvent → MicState
  | MicEvent.micOn =>
      { s with
          micActive := true,
          listening := if s.speaking then s.listening else true }
  | MicEvent.micOff => { s with micActive := false, listening := false }
  | MicEvent.speakStart =>
      { s with
          speaking := true,
          listening := if s.micActive then false else s.listening }
  | MicEvent.speakEnd =>
      { s with
          speaking := false,
          listening := if s.micActive then true else s.listening }

/-- The controller mounts with the mic off, not listening, not speaking. -/
def micInit : MicState :=
  { micActive := false, listening := false, speaking := false }

/-- States of the mic/speaker machine reachable from the mount state. -/
inductive MicReachable : MicState → Prop where
  | init : MicReachable micInit
  | step {s : MicState} (e : MicEvent) :
      MicReachable s → MicReachable (micStep s e)

/-- The trailing-edge debounce (`debounce` in `Companion.tsx`) run over a
timestamped arrival sequence: each arrival cancels a pending timer and arms a
new one for `delay` later, so an arrival's callback fires exactly when no
further arrival comes strictly within `delay` of it; the last arrival's
callback always fires. Returns the transcripts whose callback fires, in
order. -/
def debounceEmits (delay : Nat) : List (Nat × String) → List String
  | [] => []
  | [a] => [a.2]
  | a :: b :: rest =>
      if b.1 ≥ a.1 + delay then a.2 :: debounceEmits delay (b :: rest)
      else debounceEmits delay (b :: rest)

/-- The state touched by the debounced result handler
(`debouncedHandleResult` in `Companion.tsx`): the live-caption value
(`displayTranscript`) and the transcript queue. -/
structure IntakeState where
  displayTranscript : String
  queue : List String
deriving Repr, DecidableEq, Inhabited

/-- The body of the debounced callback: update the live caption and enqueue,
in one synchronous step, regardless of speaking/processing state (those gate
only the drain trigger, not the caption or the push). -/
def handleDebouncedResult (s : IntakeState) (t : String) : IntakeState :=
  { displayTranscript := t, queue := s.queue ++ [t] }

/-- Run the debounced callback over a list of surviving transcripts. -/
def runIntake (s : IntakeState) : List String → IntakeState
  | [] => s
  | t :: ts => runIntake (handleDebouncedResult s t) ts

/-- The sequence of values the caption display receives over a timestamped
arrival sequence: exactly the debounce survivors reach
`setDisplayTranscript`, since the caption update lives inside the debounced
callback. -/
def captionUpdates (arrivals : List (Nat × String)) : List String :=
  debounceEmits 300 arrivals

/-- A concrete routine in the shape of the catalog entries in
`lib/routines.ts`, used to evaluate the theorems on concrete inputs. -/
def sampleRoutine : Routine :=
  { id := "teeth", name := "Brush Teeth", icon := "T",
    triggerPhrases := ["teeth", "brush"],
    steps :=
      [{ id := "teeth-1", instruction := "Find your toothbrush!",
         encouragement := "Great!", microSteps := [] },
       { id := "teeth-2", instruction := "Add toothpaste.",
         encouragement := "Nice!", microSteps := [] }] }

/-- A concrete child profile for evaluating the theorems. -/
def sampleProfile : ChildProfile := { name := "Mia", likes := ["trains"] }

/-- A concrete idle controller state for evaluating the theorems. -/
def sampleState : CompanionState :=
  { currentRoutine := none, currentStepIndex := 0, frustrationCount := 0,
    frustrationLevel := FrustrationLevel.none, showHelpAlert := false,
    messages := [], retryTimer := none }

/-- Joint inductive invariant of the mic/speaker machine: listening implies the
mic toggle is on, and listening and speaking are never both set. -/
theorem micReachable_invariant {s : MicState} (h : MicReachable s) :
    (s.listening = true → s.micActive = true) ∧
    ¬(s.listening = true ∧ s.speaking = true) := by
  induction h with
  | init => simp [micInit]
  | step e _ ih =>
      rename_i s _
      obtain ⟨ma, l, sp⟩ := s
      cases e <;> cases ma <;> cases l <;> cases sp <;> simp_all [micStep]

/-- C1: `processQueue` is single-flight and FIFO. A drain while the busy guard
is set is a no-op (so at most one transcript is in processing at any instant,
and a drain immediately following a drain changes nothing); a drain from an
idle state pops exactly the front transcript and sets the guard; and the queue
length decreases only through the drain transition. -/
theorem claim1_queue_single_flight_fifo :
    (∀ s : QueueState, s.processing.isSome = true →
        queueStep s QueueEvent.drainStart = s) ∧
    (∀ s : QueueState,
        queueStep (queueStep s QueueEvent.drainStart) QueueEvent.drainStart
          = queueStep s QueueEvent.drainStart) ∧
    (∀ (s : QueueState) (t : String) (rest : List String),
        s.processing = none → s.queue = t :: rest →
        queueStep s QueueEvent.drainStart
          = { queue := rest, processing := some t }) ∧
    (∀ (s : QueueState) (e : QueueEvent),
        (queueStep s e).queue.length < s.queue.length →
        e = QueueEvent.drainStart) := by
  refine ⟨?_, ?_, ?_, ?_⟩
  · intro s h
    simp [queueStep, h]
  · intro s
    obtain ⟨q, p⟩ := s
    cases p <;> cases q <;> simp [queueStep]
  · intro s t rest hp hq
    simp [queueStep, hp, hq]
  · intro s e h
    cases e with
    | enqueue t => simp [queueStep] at h
    | drainStart => rfl
    | drainFinish => simp [queueStep] at h

/-- Witness for C1: a drain with the guard set is a no-op, and a drain from an
idle two-element queue pops the front transcript. -/
theorem claim1_queue_single_flight_fifo_witness :
    queueStep { queue := ["b"], processing := some "a" } QueueEvent.drainStart
      = { queue := ["b"], processing := some "a" } ∧
    queueStep { queue := ["a", "b"], processing := none } QueueEvent.drainStart
      = { queue := ["b"], processing := some "a" } := by
  have h := claim1_queue_single_flight_fifo
  exact ⟨h.1 _ rfl, h.2.2.1 _ "a" ["b"] rfl rfl⟩

/-- C2: in every reachable state of the mic/speaker machine, the listening and
speaking flags are never simultaneously true; when speech output starts while
the mic is active, listening is stopped in the same transition; and from a
speaking state, the only transition that resumes listening is the end of
playback. -/
theorem claim2_listening_speaking_exclusive :
    (∀ s : MicState, MicReachable s →
        ¬(s.listening = true ∧ s.speaking = true)) ∧
    (∀ s : MicState, s.micActive = true →
        (micStep s MicEvent.speakStart).listening = false) ∧
    (∀ (s : MicState) (e : MicEvent), MicReachable s → s.speaking = true →
        (micStep s e).listening = true → e = MicEvent.speakEnd) := by
  refine ⟨?_, ?_, ?_⟩
  · intro s h
    exact (micReachable_invariant h).2
  · intro s h
    simp [micStep, h]
  · intro s e hr hsp hl
    have inv := micReachable_invariant hr
    obtain ⟨ma, l, spk⟩ := s
    cases e <;> cases ma <;> cases l <;> cases spk <;> simp_all [micStep]

/-- Witness for C2: after mount, mic on, then speech start, the machine is in a
reachable speaking state with listening off; ending playback is the transition
that resumes listening. -/
theorem claim2_listening_speaking_exclusive_witness :
    ¬((micStep (micStep micInit MicEvent.micOn) MicEvent.speakStart).listening = true ∧
      (micStep (micStep micInit MicEvent.micOn) MicEvent.speakStart).speaking = true) ∧
    (micStep { micActive := true, listening := true, speaking := false }
        MicEvent.speakStart).listening = false ∧
    MicEvent.speakEnd = MicEvent.speakEnd := by
  have h := claim2_listening_speaking_exclusive
  refine ⟨h.1 _ (MicReachable.step MicEvent.speakStart
      (MicReachable.step MicEvent.micOn MicReachable.init)), h.2.1 _ rfl, ?_⟩
  exact h.2.2 (micStep (micStep micInit MicEvent.micOn) MicEvent.speakStart)
    MicEvent.speakEnd
    (MicReachable.step MicEvent.speakStart
      (MicReachable.step MicEvent.micOn MicReachable.init))
    rfl rfl

/-- C5: the frustration escalation is a threshold ladder over the counter, and
only the single highest applicable tier's action fires per increment: at least
4 gives `high`, raises the help alert and speaks the caregiver request
personalized with the child's name; exactly 3 gives `moderate` and speaks a
distraction referencing the randomly chosen like (skipped when the likes list
is empty); 1 or 2 give `mild` with nothing spoken; 0 gives `none`; and no
increment ever speaks more than one phrase. -/
theorem claim5_frustration_ladder (profile : ChildProfile) (likeIdx count : Nat) :
    (count ≥ 4 → handleFrustrationEscalation profile likeIdx count =
        (FrustrationLevel.high, true,
         ["Hey, can someone help " ++ profile.name ++ "? We could use a hand!"])) ∧
    (∀ like, profile.likes[likeIdx]? = some like →
        handleFrustrationEscalation profile likeIdx 3 =
        (FrustrationLevel.moderate, false,
         ["You know what? Let's take a little break. Tell me about " ++ like ++ "!"])) ∧
    (profile.likes = [] →
        handleFrustrationEscalation profile likeIdx 3 =
        (FrustrationLevel.moderate, false, [])) ∧
    ((count = 1 ∨ count = 2) →
        handleFrustrationEscalation profile likeIdx count =
        (FrustrationLevel.mild, false, [])) ∧
    (handleFrustrationEscalation profile likeIdx 0 =
        (FrustrationLevel.none, false, [])) ∧
    (handleFrustrationEscalation profile likeIdx count).2.2.length ≤ 1 := by
  refine ⟨?_, ?_, ?_, ?_, ?_, ?_⟩
  · intro h
    simp [handleFrustrationEscalation, h]
  · intro like hl
    simp [handleFrustrationEscalation, hl]
  · intro h
    simp [handleFrustrationEscalation, h]
  · rintro (rfl | rfl) <;> simp [handleFrustrationEscalation]
  · simp [handleFrustrationEscalation]
  · unfold handleFrustrationEscalation
    split
    · simp
    · split
      · split <;> simp
      · split <;> simp

/-- Witness for C5: the ladder evaluated at counts 4, 3 (likes present and
empty) and 2 on concrete profiles. -/
theorem claim5_frustration_ladder_witness :
    handleFrustrationEscalation sampleProfile 0 4 =
      (FrustrationLevel.high, true,
       ["Hey, can someone help Mia? We could use a hand!"]) ∧
    handleFrustrationEscalation sampleProfile 0 3 =
      (FrustrationLevel.moderate, false,
       ["You know what? Let's take a little break. Tell me about trains!"]) ∧
    handleFrustrationEscalation { name := "Mia", likes := [] } 0 3 =
      (FrustrationLevel.moderate, false, []) ∧
    handleFrustrationEscalation sampleProfile 0 2 =
      (FrustrationLevel.mild, false, []) := by
  have h4 := claim5_frustration_ladder sampleProfile 0 4
  have h3 := claim5_frustration_ladder sampleProfile 0 3
  have he := claim5_frustration_ladder { name := "Mia", likes := [] } 0 3
  have h2 := claim5_frustration_ladder sampleProfile 0 2
  exact ⟨h4.1 (by decide), h3.2.1 "trains" rfl, he.2.2.1 rfl,
    h2.2.2.2.1 (Or.inr rfl)⟩

/-- Progress handling with a non-last cursor: the cursor advances by one, the
routine stays active, and the spoken reply is the assistant message followed
by the instruction of the next step. -/
theorem handleApiSuccess_progress_advance (profile : ChildProfile)
    (likeIdx : Nat) (st : CompanionState) (r : Routine) (resp : ChatResponse)
    (hr : st.currentRoutine = some r) (hp : resp.indicatesProgress = true)
    (h : st.currentStepIndex + 1 < r.steps.length) :
    (handleApiSuccess profile likeIdx st resp).1.currentRoutine = some r ∧
    (handleApiSuccess profile likeIdx st resp).1.currentStepIndex
      = st.currentStepIndex + 1 ∧
    (handleApiSuccess profile likeIdx st resp).2 =
      [resp.message ++ " " ++ (r.steps[st.currentStepIndex + 1]).instruction] := by
  obtain ⟨m, ip, ifr⟩ := resp
  simp only at hp
  subst hp
  have hlast : ¬ (st.currentStepIndex ≥ r.steps.length - 1) := by omega
  have hadv : st.currentStepIndex < r.steps.length - 1 := by omega
  have hget : r.steps[st.currentStepIndex + 1]?
      = some (r.steps[st.currentStepIndex + 1]) := List.getElem?_eq_getElem h
  cases ifr <;>
    simp [handleApiSuccess, addMessage, nextStep, hr, hlast, hadv, hget,
      handleFrustrationEscalation]

/-- Progress handling at the last step: the routine session is torn down, the
cursor resets to 0, and only the assistant message is spoken. -/
theorem handleApiSuccess_progress_complete (profile : ChildProfile)
    (likeIdx : Nat) (st : CompanionState) (r : Routine) (resp : ChatResponse)
    (hr : st.currentRoutine = some r) (hp : resp.indicatesProgress = true)
    (h : r.steps.length ≤ st.currentStepIndex + 1) :
    (handleApiSuccess profile likeIdx st resp).1.currentRoutine = none ∧
    (handleApiSuccess profile likeIdx st resp).1.currentStepIndex = 0 ∧
    (handleApiSuccess profile likeIdx st resp).2 = [resp.message] := by
  obtain ⟨m, ip, ifr⟩ := resp
  simp only at hp
  subst hp
  have hlast : st.currentStepIndex ≥ r.steps.length - 1 := by omega
  cases ifr <;>
    simp [handleApiSuccess, addMessage, endRoutine, hr, hlast,
      handleFrustrationEscalation]

/-- Progress with no frustration signal resets the counter to 0 and the level
to `none`, whatever their prior values. -/
theorem handleApiSuccess_progress_resets (profile : ChildProfile)
    (likeIdx : Nat) (st : CompanionState) (r : Routine) (resp : ChatResponse)
    (hr : st.currentRoutine = some r) (hp : resp.indicatesProgress = true)
    (hf : resp.indicatesFrustration = false) :
    (handleApiSuccess profile likeIdx st resp).1.frustrationCount = 0 ∧
    (handleApiSuccess profile likeIdx st resp).1.frustrationLevel
      = FrustrationLevel.none := by
  obtain ⟨m, ip, ifr⟩ := resp
  simp only at hp hf
  subst hp; subst hf
  by_cases hc : st.currentStepIndex ≥ r.steps.length - 1
  · simp [handleApiSuccess, addMessage, endRoutine, hr, hc]
  · have hadv : st.currentStepIndex < r.steps.length - 1 := by omega
    simp [handleApiSuccess, addMessage, nextStep, hr, hc, hadv]

/-- Progress with a simultaneous frustration signal: the reset lands first, so
the increment leaves the counter at exactly 1 and the level at `mild`. -/
theorem handleApiSuccess_progress_frustration (profile : ChildProfile)
    (likeIdx : Nat) (st : CompanionState) (r : Routine) (resp : ChatResponse)
    (hr : st.currentRoutine = some r) (hp : resp.indicatesProgress = true)
    (hf : resp.indicatesFrustration = true) :
    (handleApiSuccess profile likeIdx st resp).1.frustrationCount = 1 ∧
    (handleApiSuccess profile likeIdx st resp).1.frustrationLevel
      = FrustrationLevel.mild := by
  obtain ⟨m, ip, ifr⟩ := resp
  simp only at hp hf
  subst hp; subst hf
  by_cases hc : st.currentStepIndex ≥ r.steps.length - 1
  · simp [handleApiSuccess, addMessage, endRoutine, hr, hc,
      handleFrustrationEscalation]
  · have hadv : st.currentStepIndex < r.steps.length - 1 := by omega
    simp [handleApiSuccess, addMessage, nextStep, hr, hc, hadv,
      handleFrustrationEscalation]

/-- With an active routine the trigger check is skipped, so a successful call
routes the turn through `handleApiSuccess` on the state with the user message
appended. -/
theorem processUserInput_ok_of_routine (catalog : List Routine)
    (profile : ChildProfile) (likeIdx fallbackId : Nat) (st : CompanionState)
    (r : Routine) (resp : ChatResponse) (t : String)
    (ht : t ≠ "") (hr : st.currentRoutine = some r) :
    processUserInput catalog profile likeIdx fallbackId (ApiOutcome.ok resp) st t =
      { state := (handleApiSuccess profile likeIdx (addMessage Role.user t st) resp).1,
        spoken := (handleApiSuccess profile likeIdx (addMessage Role.user t st) resp).2,
        apiCalled := true } := by
  simp [processUserInput, ht, addMessage, hr]

/-- C3: for a transcript processed with an active routine session and a
progress response, if the cursor `i` is not on the last step the cursor becomes
`i + 1` and the spoken reply is the assistant message concatenated with the
instruction of step `i + 1` (the code computes it from the pre-advance index);
if `i` is on the last step the session becomes `none`, the cursor resets to 0,
and only the assistant message is spoken. -/
theorem claim3_progress_advances_or_ends (catalog : List Routine)
    (profile : ChildProfile) (likeIdx fallbackId : Nat) (st : CompanionState)
    (r : Routine) (resp : ChatResponse) (t : String) (res : TurnResult)
    (ht : t ≠ "") (hr : st.currentRoutine = some r)
    (hp : resp.indicatesProgress = true)
    (hres : res = processUserInput catalog profile likeIdx fallbackId
        (ApiOutcome.ok resp) st t) :
    ((h : st.currentStepIndex + 1 < r.steps.length) →
        res.state.currentRoutine = some r ∧
        res.state.currentStepIndex = st.currentStepIndex + 1 ∧
        res.spoken
          = [resp.message ++ " " ++ (r.steps[st.currentStepIndex + 1]).instruction]) ∧
    (r.steps.length ≤ st.currentStepIndex + 1 →
        res.state.currentRoutine = none ∧
        res.state.currentStepIndex = 0 ∧
        res.spoken = [resp.message]) := by
  subst hres
  rw [processUserInput_ok_of_routine catalog profile likeIdx fallbackId st r resp t ht hr]
  have hr0 : (addMessage Role.user t st).currentRoutine = some r := hr
  constructor
  · intro h
    exact handleApiSuccess_progress_advance profile likeIdx
      (addMessage Role.user t st) r resp hr0 hp h
  · intro h
    exact handleApiSuccess_progress_complete profile likeIdx
      (addMessage Role.user t st) r resp hr0 hp h

/-- Witness for C3: the sample routine at step 0 advances to step 1 and speaks
the combined reply; at step 1 (the last) the session ends. -/
theorem claim3_progress_advances_or_ends_witness :
    ((processUserInput [] sampleProfile 0 0
        (ApiOutcome.ok { message := "yay", indicatesProgress := true,
                         indicatesFrustration := false })
        { sampleState with currentRoutine := some sampleRoutine } "done").spoken
      = ["yay Add toothpaste."]) ∧
    ((processUserInput [] sampleProfile 0 0
        (ApiOutcome.ok { message := "yay", indicatesProgress := true,
                         indicatesFrustration := false })
        { sampleState with
            currentRoutine := some sampleRoutine,
            currentStepIndex := 1 } "done").state.currentRoutine = none) := by
  have h0 := claim3_progress_advances_or_ends [] sampleProfile 0 0
    { sampleState with currentRoutine := some sampleRoutine } sampleRoutine
    { message := "yay", indicatesProgress := true, indicatesFrustration := false }
    "done" _ (by decide) rfl rfl rfl
  have h1 := claim3_progress_advances_or_ends [] sampleProfile 0 0
    { sampleState with
        currentRoutine := some sampleRoutine, currentStepIndex := 1 } sampleRoutine
    { message := "yay", indicatesProgress := true, indicatesFrustration := false }
    "done" _ (by decide) rfl rfl rfl
  refine ⟨?_, (h1.2 (by decide)).1⟩
  have := (h0.1 (by decide)).2.2
  simpa [sampleRoutine] using this

/-- C6 counterexample: the frustration reset lives inside the
`currentRoutine && indicatesProgress` branch, so with no active routine a
progress-signalling response leaves a prior counter of 2 untouched. -/
theorem claim6_counterexample :
    (processUserInput [] sampleProfile 0 0
        (ApiOutcome.ok { message := "ok", indicatesProgress := true,
                         indicatesFrustration := false })
        { sampleState with frustrationCount := 2,
                           frustrationLevel := FrustrationLevel.mild }
        "hello").state.frustrationCount = 2 := by decide

/-- C6 amended: for a transcript processed with an active routine session
whose response signals progress, the counter resets to 0 and the level to
`none` regardless of their prior values; the turn then ends at exactly those
values unless the response independently co-signals frustration, in which case
the subsequent increment leaves the counter at exactly 1 and the level at
`mild` — still independent of the prior value. -/
theorem claim6_progress_resets_frustration (catalog : List Routine)
    (profile : ChildProfile) (likeIdx fallbackId : Nat) (st : CompanionState)
    (r : Routine) (resp : ChatResponse) (t : String) (res : TurnResult)
    (ht : t ≠ "") (hr : st.currentRoutine = some r)
    (hp : resp.indicatesProgress = true)
    (hres : res = processUserInput catalog profile likeIdx fallbackId
        (ApiOutcome.ok resp) st t) :
    res.state.frustrationCount
      = (if resp.indicatesFrustration then 1 else 0) ∧
    res.state.frustrationLevel
      = (if resp.indicatesFrustration then FrustrationLevel.mild
         else FrustrationLevel.none) := by
  subst hres
  rw [processUserInput_ok_of_routine catalog profile likeIdx fallbackId st r resp t ht hr]
  cases hf : resp.indicatesFrustration
  · simpa [hf] using handleApiSuccess_progress_resets profile likeIdx
      (addMessage Role.user t st) r resp hr hp hf
  · simpa [hf] using handleApiSuccess_progress_frustration profile likeIdx
      (addMessage Role.user t st) r resp hr hp hf

/-- Witness for C6 (amended): a progress turn on the sample routine with the
counter previously at 3 ends with the counter at 0 and the level `none`. -/
theorem claim6_progress_resets_frustration_witness :
    ((processUserInput [] sampleProfile 0 0
        (ApiOutcome.ok { message := "yay", indicatesProgress := true,
                         indicatesFrustration := false })
        { sampleState with
            currentRoutine := some sampleRoutine,
            frustrationCount := 3,
            frustrationLevel := FrustrationLevel.moderate }
        "done").state.frustrationCount = 0) ∧
    ((processUserInput [] sampleProfile 0 0
        (ApiOutcome.ok { message := "yay", indicatesProgress := true,
                         indicatesFrustration := false })
        { sampleState with
            currentRoutine := some sampleRoutine,
            frustrationCount := 3,
            frustrationLevel := FrustrationLevel.moderate }
        "done").state.frustrationLevel = FrustrationLevel.none) := by
  have h := claim6_progress_resets_frustration [] sampleProfile 0 0
    { sampleState with
        currentRoutine := some sampleRoutine,
        frustrationCount := 3,
        frustrationLevel := FrustrationLevel.moderate }
    sampleRoutine
    { message := "yay", indicatesProgress := true, indicatesFrustration := false }
    "done" _ (by decide) rfl rfl rfl
  simpa using h

/-- C10: when a response signals both progress and frustration while a routine
session is active, the progress reset is applied before the frustration
increment, so the turn ends with the counter at exactly 1 and the level at
`mild`, regardless of the counter's prior value. -/
theorem claim10_progress_then_frustration (catalog : List Routine)
    (profile : ChildProfile) (likeIdx fallbackId : Nat) (st : CompanionState)
    (r : Routine) (resp : ChatResponse) (t : String) (res : TurnResult)
    (ht : t ≠ "") (hr : st.currentRoutine = some r)
    (hp : resp.indicatesProgress = true)
    (hf : resp.indicatesFrustration = true)
    (hres : res = processUserInput catalog profile likeIdx fallbackId
        (ApiOutcome.ok resp) st t) :
    res.state.frustrationCount = 1 ∧
    res.state.frustrationLevel = FrustrationLevel.mild := by
  subst hres
  rw [processUserInput_ok_of_routine catalog profile likeIdx fallbackId st r resp t ht hr]
  exact handleApiSuccess_progress_frustration profile likeIdx
    (addMessage Role.user t st) r resp hr hp hf

/-- Witness for C10: a progress-and-frustration turn on the sample routine
with the counter previously at 5 ends with the counter at 1 and level
`mild`. -/
theorem claim10_progress_then_frustration_witness :
    ((processUserInput [] sampleProfile 0 0
        (ApiOutcome.ok { message := "yay", indicatesProgress := true,
                         indicatesFrustration := true })
        { sampleState with
            currentRoutine := some sampleRoutine,
            frustrationCount := 5,
            frustrationLevel := FrustrationLevel.high }
        "done").state.frustrationCount = 1) ∧
    ((processUserInput [] sampleProfile 0 0
        (ApiOutcome.ok { message := "yay", indicatesProgress := true,
                         indicatesFrustration := true })
        { sampleState with
            currentRoutine := some sampleRoutine,
            frustrationCount := 5,
            frustrationLevel := FrustrationLevel.high }
        "done").state.frustrationLevel = FrustrationLevel.mild) :=
  claim10_progress_then_frustration [] sampleProfile 0 0
    { sampleState with
        currentRoutine := some sampleRoutine,
        frustrationCount := 5,
        frustrationLevel := FrustrationLevel.high }
    sampleRoutine
    { message := "yay", indicatesProgress := true, indicatesFrustration := true }
    "done" _ (by decide) rfl rfl rfl rfl

/-- The function `List.find?` returns the first element of the list satisfying the
predicate: when everything before `r` fails the predicate and `r` passes it,
the search returns `r`. -/
theorem find?_first_match {α : Type} (p : α → Bool) (r : α) (suf : List α) :
    ∀ pre : List α, (∀ x ∈ pre, p x = false) → p r = true →
      (pre ++ r :: suf).find? p = some r := by
  intro pre hpre hr
  induction pre with
  | nil => simp [List.find?_cons, hr]
  | cons a tl ih =>
      have ha : p a = false := hpre a (by simp)
      have htl : ∀ x ∈ tl, p x = false := fun x hx => hpre x (by simp [hx])
      simpa [List.find?_cons, ha] using ih htl

/-- C4: with no active routine session, a transcript matching a trigger phrase
of `r` — the first matching routine in catalog order — starts a session on `r`
at step 0, appends the synthesized greeting (the lowercased routine name with
the first step's instruction) to the log as an assistant message, speaks
exactly that greeting, and never calls the Conversation Service. -/
theorem claim4_trigger_short_circuit (pre suf : List Routine)
    (profile : ChildProfile) (likeIdx fallbackId : Nat) (api : ApiOutcome)
    (st : CompanionState) (r : Routine) (s0 : RoutineStep)
    (rest : List RoutineStep) (t : String) (res : TurnResult)
    (ht : t ≠ "")
    (hpre : ∀ r' ∈ pre, routineMatches t r' = false)
    (hmatch : routineMatches t r = true)
    (hnone : st.currentRoutine = none)
    (hsteps : r.steps = s0 :: rest)
    (hres : res = processUserInput (pre ++ r :: suf) profile likeIdx fallbackId
        api st t) :
    findRoutineByTrigger (pre ++ r :: suf) t = some r ∧
    res.state.currentRoutine = some r ∧
    res.state.currentStepIndex = 0 ∧
    res.apiCalled = false ∧
    res.spoken = ["Oh, you want to " ++ strToLower r.name ++ "! I'll help you. "
        ++ s0.instruction] ∧
    res.state.messages = st.messages ++
      [{ role := Role.user, content := t },
       { role := Role.assistant,
         content := "Oh, you want to " ++ strToLower r.name ++ "! I'll help you. "
           ++ s0.instruction }] := by
  have hfind : findRoutineByTrigger (pre ++ r :: suf) t = some r :=
    find?_first_match (routineMatches t) r suf pre hpre hmatch
  subst hres
  refine ⟨hfind, ?_⟩
  simp [processUserInput, ht, addMessage, startRoutine, hnone, hfind, hsteps]

/-- Witness for C4: "I want to BRUSH my teeth" with no active session starts
the sample routine at step 0 and speaks the greeting without an API call. -/
theorem claim4_trigger_short_circuit_witness :
    findRoutineByTrigger [sampleRoutine] "I want to BRUSH my teeth"
      = some sampleRoutine ∧
    (processUserInput [sampleRoutine] sampleProfile 0 0 ApiOutcome.err
        sampleState "I want to BRUSH my teeth").state.currentRoutine
      = some sampleRoutine ∧
    (processUserInput [sampleRoutine] sampleProfile 0 0 ApiOutcome.err
        sampleState "I want to BRUSH my teeth").state.currentStepIndex = 0 ∧
    (processUserInput [sampleRoutine] sampleProfile 0 0 ApiOutcome.err
        sampleState "I want to BRUSH my teeth").apiCalled = false ∧
    (processUserInput [sampleRoutine] sampleProfile 0 0 ApiOutcome.err
        sampleState "I want to BRUSH my teeth").spoken
      = ["Oh, you want to " ++ strToLower sampleRoutine.name
          ++ "! I'll help you. " ++ "Find your toothbrush!"] ∧
    (processUserInput [sampleRoutine] sampleProfile 0 0 ApiOutcome.err
        sampleState "I want to BRUSH my teeth").state.messages
      = sampleState.messages ++
        [{ role := Role.user, content := "I want to BRUSH my teeth" },
         { role := Role.assistant,
           content := "Oh, you want to " ++ strToLower sampleRoutine.name
             ++ "! I'll help you. " ++ "Find your toothbrush!" }] := by
  have h := claim4_trigger_short_circuit [] [] sampleProfile 0 0 ApiOutcome.err
    sampleState sampleRoutine
    { id := "teeth-1", instruction := "Find your toothbrush!",
      encouragement := "Great!", microSteps := [] }
    [{ id := "teeth-2", instruction := "Add toothpaste.",
       encouragement := "Nice!", microSteps := [] }]
    "I want to BRUSH my teeth" _ (by decide) (by simp) (by decide) rfl rfl rfl
  simpa using h

/-- A failing call lands in the `catch` block: the prior timer (if any) is
cleared, a single new fallback timer is installed, and the filler phrase is
spoken; no assistant message is appended yet. -/
theorem processUserInput_err (catalog : List Routine) (profile : ChildProfile)
    (likeIdx fallbackId : Nat) (st : CompanionState) (t : String)
    (ht : t ≠ "")
    (hpath : st.currentRoutine = none → findRoutineByTrigger catalog t = none) :
    processUserInput catalog profile likeIdx fallbackId ApiOutcome.err st t =
      { state := { (addMessage Role.user t st) with retryTimer := some fallbackId },
        spoken := ["Hold on, I'm thinking..."],
        apiCalled := true } := by
  rcases hcr : st.currentRoutine with _ | r
  · simp [processUserInput, ht, addMessage, hcr, hpath hcr]
  · simp [processUserInput, ht, addMessage, hcr]

/-- C7 counterexample: the code clears the pending fallback timer only inside
the `catch` block, so a new transcript whose attempt succeeds leaves a
previously scheduled fallback timer pending — it is neither cancelled nor
replaced, contradicting the claim that any new attempt cancels or replaces
it. -/
theorem claim7_counterexample :
    (processUserInput [] sampleProfile 0 7
        (ApiOutcome.ok { message := "hi there", indicatesProgress := false,
                         indicatesFrustration := false })
        { sampleState with retryTimer := some 0 } "hello").state.retryTimer
      = some 0 := by decide

/-- C7 amended: on every Conversation Service failure the controller speaks
the fixed filler phrase and installs a single fallback timer, replacing
whatever timer was pending (so at most one is outstanding, and a new failing
attempt replaces the pending timer); when the timer fires while the component
is mounted it appends and speaks exactly one phrase from the fixed offline
set, and does nothing when unmounted. A new attempt that succeeds, however,
leaves a previously scheduled fallback timer pending. -/
theorem claim7_failure_fallback (catalog : List Routine)
    (profile : ChildProfile) (likeIdx fallbackId offIdx : Nat)
    (st : CompanionState) (t phrase : String) (res : TurnResult)
    (ht : t ≠ "")
    (hpath : st.currentRoutine = none → findRoutineByTrigger catalog t = none)
    (hres : res = processUserInput catalog profile likeIdx fallbackId
        ApiOutcome.err st t)
    (hoff : OFFLINE_PHRASES[offIdx]? = some phrase) :
    res.spoken = ["Hold on, I'm thinking..."] ∧
    res.state.retryTimer = some fallbackId ∧
    phrase ∈ OFFLINE_PHRASES ∧
    (fireFallback offIdx true res.state).2 = [phrase] ∧
    (fireFallback offIdx true res.state).1.messages
      = res.state.messages ++ [{ role := Role.assistant, content := phrase }] ∧
    (fireFallback offIdx true res.state).1.retryTimer = none ∧
    (fireFallback offIdx false res.state).2 = [] ∧
    (fireFallback offIdx false res.state).1.messages = res.state.messages := by
  subst hres
  rw [processUserInput_err catalog profile likeIdx fallbackId st t ht hpath]
  have hmem : phrase ∈ OFFLINE_PHRASES := by
    obtain ⟨hlt, hget⟩ := List.getElem?_eq_some.mp hoff
    exact hget ▸ List.getElem_mem hlt
  refine ⟨rfl, rfl, hmem, ?_, ?_, ?_, ?_, ?_⟩ <;>
    simp [fireFallback, addMessage, hoff]

/-- Witness for C7 (amended): a failing attempt from the idle state installs
timer 7 and speaks the filler; the fired timer speaks offline phrase 2. -/
theorem claim7_failure_fallback_witness :
    (processUserInput [] sampleProfile 0 7 ApiOutcome.err sampleState
        "hello").spoken = ["Hold on, I'm thinking..."] ∧
    (processUserInput [] sampleProfile 0 7 ApiOutcome.err sampleState
        "hello").state.retryTimer = some 7 ∧
    "Keep going, you've got this!" ∈ OFFLINE_PHRASES ∧
    (fireFallback 2 true
        (processUserInput [] sampleProfile 0 7 ApiOutcome.err sampleState
          "hello").state).2 = ["Keep going, you've got this!"] := by
  have h := claim7_failure_fallback [] sampleProfile 0 7 2 sampleState
    "hello" "Keep going, you've got this!" _ (by decide) (fun _ => rfl) rfl rfl
  exact ⟨h.1, h.2.1, h.2.2.1, h.2.2.2.1⟩

/-- Under the debounce, an arrival followed within the window by another is
coalesced: over a sequence in which every consecutive pair is separated by
less than `delay`, only the final arrival's callback fires. -/
theorem debounceEmits_all_close (delay : Nat) :
    ∀ (a : Nat × String) (l : List (Nat × String)),
      List.Chain' (fun x y => y.1 < x.1 + delay) (a :: l) →
      debounceEmits delay (a :: l) = [((a :: l).getLast (List.cons_ne_nil a l)).2] := by
  intro a l
  induction l generalizing a with
  | nil => intro _; rfl
  | cons b tl ih =>
      intro h
      have hab : b.1 < a.1 + delay := (List.chain'_cons.mp h).1
      have htl := ih b (List.chain'_cons.mp h).2
      simp only [debounceEmits, if_neg (by omega : ¬ b.1 ≥ a.1 + delay), htl,
        List.getLast_cons (List.cons_ne_nil b tl)]

/-- C8: for every nonempty sequence of transcript arrivals in which each
arrival comes less than 300ms after the previous one, only the last transcript
is emitted by the debouncer — hence only the last is enqueued: running the
debounced handler over the survivors appends exactly that transcript to the
queue. -/
theorem claim8_debounce_keeps_last (a : Nat × String)
    (l : List (Nat × String)) (s : IntakeState)
    (h : List.Chain' (fun x y => y.1 < x.1 + 300) (a :: l)) :
    debounceEmits 300 (a :: l) = [((a :: l).getLast (List.cons_ne_nil a l)).2] ∧
    (runIntake s (debounceEmits 300 (a :: l))).queue
      = s.queue ++ [((a :: l).getLast (List.cons_ne_nil a l)).2] := by
  have he := debounceEmits_all_close 300 a l h
  refine ⟨he, ?_⟩
  rw [he]
  simp [runIntake, handleDebouncedResult]

/-- Witness for C8: two arrivals 100ms apart coalesce to the second one, which
is the only transcript enqueued. -/
theorem claim8_debounce_keeps_last_witness :
    debounceEmits 300 [(0, "A"), (100, "B")] = ["B"] ∧
    (runIntake { displayTranscript := "", queue := [] }
        (debounceEmits 300 [(0, "A"), (100, "B")])).queue = [] ++ ["B"] := by
  have h := claim8_debounce_keeps_last (0, "A") [(100, "B")]
    { displayTranscript := "", queue := [] }
    (by simp [List.chain'_cons, List.chain'_singleton])
  simpa using h

/-- C9 counterexample: the caption update (`setDisplayTranscript`) lives
inside the debounced callback, so the raw transcript "A", coalesced away by
"B" arriving 100ms later, never reaches the caption display at all —
contradicting the claim that every raw transcript is surfaced before and
independently of debouncing. -/
theorem claim9_counterexample :
    captionUpdates [(0, "A"), (100, "B")] = ["B"] ∧
    "A" ∉ captionUpdates [(0, "A"), (100, "B")] := by decide

/-- C9 amended: each transcript that survives debouncing updates the caption
display at the moment it is enqueued, in the same synchronous step and
independently of the queue contents and of any processing or speaking state;
transcripts coalesced away inside the window are neither displayed nor
enqueued. -/
theorem claim9_caption_with_enqueue (s : IntakeState) (t : String) :
    (handleDebouncedResult s t).displayTranscript = t ∧
    (handleDebouncedResult s t).queue = s.queue ++ [t] :=
  ⟨rfl, rfl⟩

end NeuroBuddy
